import Mathlib

/-!
Shallow embedding of the farmbot-js data model (`src/interfaces.ts`) and of
the state-synchronization / command-correlation engine its specification
describes.  TypeScript `number` is embedded as `Int`, `string` as `String`,
optional / possibly-`undefined` fields as `Option`, and string-keyed
`Dictionary<T>` as `String → Option T`.
-/

namespace Farmbot

/-- TS `LocationName = "position" | "scaled_encoders" | "raw_encoders"`. -/
inductive LocationName where
  | position
  | scaled_encoders
  | raw_encoders
deriving DecidableEq, Repr

/-- TS `Xyz = "x" | "y" | "z"`. -/
inductive Xyz where
  | x
  | y
  | z
deriving DecidableEq, Repr

/-- TS `FirmwareHardware = "arduino" | "farmduino" | "farmduino_k14"`. -/
inductive FirmwareHardware where
  | arduino
  | farmduino
  | farmduino_k14
deriving DecidableEq, Repr

/-- TS `ProgressStatus = "complete" | "working" | "error"`. -/
inductive ProgressStatus where
  | complete
  | working
  | error
deriving DecidableEq, Repr

/-- TS `JobProgress = PercentageProgress | BytesProgress`, a tagged union
discriminated by the `unit` field (`"percent"` vs `"bytes"`).  The
`percentage` constructor carries `PercentageProgress.percent`, the `bytes`
constructor carries `BytesProgress.bytes`. -/
inductive JobProgress where
  | percentage (status : ProgressStatus) (percent : Int)
  | bytes (status : ProgressStatus) (bytes : Int)
deriving DecidableEq, Repr

/-- The `unit` discriminant of a `JobProgress` record. -/
def JobProgress.unit : JobProgress → String
  | .percentage _ _ => "percent"
  | .bytes _ _ => "bytes"

/-- The `status` field shared by both `JobProgress` variants. -/
def JobProgress.status : JobProgress → ProgressStatus
  | .percentage s _ => s
  | .bytes s _ => s

/-- TS `Pin { mode: number; value: number }`. -/
structure Pin where
  mode : Int
  value : Int
deriving DecidableEq, Repr

/-- TS `Pins = Dictionary<Pin | undefined>`: sparse lookup indexed by pin
number (string key). -/
def Pins : Type := String → Option Pin

/-- TS `Enigma` alert record. -/
structure Enigma where
  created_at : Int
  problem_tag : String
  priority : Int
  uuid : String
deriving DecidableEq, Repr

/-- TS `SyncStatus`. -/
inductive SyncStatus where
  | booting
  | maintenance
  | sync_error
  | sync_now
  | synced
  | syncing
  | unknown
deriving DecidableEq, Repr

/-- TS `FarmwareConfig = Record<"name" | "label" | "value", string>`. -/
structure FarmwareConfig where
  name : String
  label : String
  value : String
deriving DecidableEq, Repr

/-- TS `LegacyFarmwareManifestMeta`. -/
structure LegacyFarmwareManifestMeta where
  min_os_version_major : String
  description : String
  language : String
  version : String
  author : String
  zip : String
deriving DecidableEq, Repr

/-- TS `LegacyFarmwareManifest` (FarmBot OS < v8).  It has no
`farmware_manifest_version` field; its `args` is a list of strings. -/
structure LegacyFarmwareManifest where
  farmware_tools_version : Option String
  executable : String
  uuid : String
  args : List String
  name : String
  url : String
  path : String
  meta : LegacyFarmwareManifestMeta
  config : List FarmwareConfig
deriving DecidableEq, Repr

/-- TS `FarmwareManifest` (FarmBot OS >= v8).  It always carries
`farmware_manifest_version`; its `args` is one combined string. -/
structure FarmwareManifest where
  farmware_manifest_version : String
  package : String
  package_version : String
  description : String
  author : String
  language : String
  executable : String
  args : String
  config : String → Option FarmwareConfig
  farmbot_os_version_requirement : String
  farmware_tools_version_requirement : String
  url : String
  zip : String

/-- TS union `FarmwareManifest | LegacyFarmwareManifest` as stored in
`process_info.farmwares`. -/
inductive FarmwareManifestEntry where
  | legacy (m : LegacyFarmwareManifest)
  | current (m : FarmwareManifest)

/-- The `farmware_manifest_version` field as seen on a manifest of either
shape: present (`some`) exactly on the current shape, absent (`none`) on the
legacy shape, which does not declare the field. -/
def FarmwareManifestEntry.manifestVersion : FarmwareManifestEntry → Option String
  | .legacy _ => none
  | .current m => some m.farmware_manifest_version

/-- The `args` field as seen on a manifest of either shape: a list of
strings on the legacy shape, a single combined string on the current
shape. -/
def FarmwareManifestEntry.argsView : FarmwareManifestEntry → List String ⊕ String
  | .legacy m => Sum.inl m.args
  | .current m => Sum.inr m.args

/-- TS `McuParamName`: the fixed enumerated set of microcontroller firmware
hardware setting names. -/
inductive McuParamName where
  | encoder_enabled_x
  | encoder_enabled_y
  | encoder_enabled_z
  | encoder_invert_x
  | encoder_invert_y
  | encoder_invert_z
  | encoder_missed_steps_decay_x
  | encoder_missed_steps_decay_y
  | encoder_missed_steps_decay_z
  | encoder_missed_steps_max_x
  | encoder_missed_steps_max_y
  | encoder_missed_steps_max_z
  | encoder_scaling_x
  | encoder_scaling_y
  | encoder_scaling_z
  | encoder_type_x
  | encoder_type_y
  | encoder_type_z
  | encoder_use_for_pos_x
  | encoder_use_for_pos_y
  | encoder_use_for_pos_z
  | movement_axis_nr_steps_x
  | movement_axis_nr_steps_y
  | movement_axis_nr_steps_z
  | movement_enable_endpoints_x
  | movement_enable_endpoints_y
  | movement_enable_endpoints_z
  | movement_home_at_boot_x
  | movement_home_at_boot_y
  | movement_home_at_boot_z
  | movement_home_spd_x
  | movement_home_spd_y
  | movement_home_spd_z
  | movement_home_up_x
  | movement_home_up_y
  | movement_home_up_z
  | movement_invert_2_endpoints_x
  | movement_invert_2_endpoints_y
  | movement_invert_2_endpoints_z
  | movement_invert_endpoints_x
  | movement_invert_endpoints_y
  | movement_invert_endpoints_z
  | movement_invert_motor_x
  | movement_invert_motor_y
  | movement_invert_motor_z
  | movement_keep_active_x
  | movement_keep_active_y
  | movement_keep_active_z
  | movement_max_spd_x
  | movement_max_spd_y
  | movement_max_spd_z
  | movement_min_spd_x
  | movement_min_spd_y
  | movement_min_spd_z
  | movement_secondary_motor_invert_x
  | movement_secondary_motor_x
  | movement_step_per_mm_x
  | movement_step_per_mm_y
  | movement_step_per_mm_z
  | movement_steps_acc_dec_x
  | movement_steps_acc_dec_y
  | movement_steps_acc_dec_z
  | movement_stop_at_home_x
  | movement_stop_at_home_y
  | movement_stop_at_home_z
  | movement_stop_at_max_x
  | movement_stop_at_max_y
  | movement_stop_at_max_z
  | movement_timeout_x
  | movement_timeout_y
  | movement_timeout_z
  | param_e_stop_on_mov_err
  | param_mov_nr_retry
  | param_version
  | pin_guard_1_active_state
  | pin_guard_1_pin_nr
  | pin_guard_1_time_out
  | pin_guard_2_active_state
  | pin_guard_2_pin_nr
  | pin_guard_2_time_out
  | pin_guard_3_active_state
  | pin_guard_3_pin_nr
  | pin_guard_3_time_out
  | pin_guard_4_active_state
  | pin_guard_4_pin_nr
  | pin_guard_4_time_out
  | pin_guard_5_active_state
  | pin_guard_5_pin_nr
  | pin_guard_5_time_out
deriving DecidableEq, Repr

/-- TS `McuParams = Partial<Record<McuParamName, (number | undefined)>>`:
a sparse mapping from parameter name to numeric value. -/
def McuParams : Type := McuParamName → Option Int

/-- TS `Configuration = Partial<FullConfiguration>`: every FarmBot OS config
field may be absent. -/
structure Configuration where
  arduino_debug_messages : Option Int
  auto_sync : Option Bool
  beta_opt_in : Option Bool
  disable_factory_reset : Option Bool
  firmware_hardware : Option FirmwareHardware
  firmware_input_log : Option Bool
  firmware_output_log : Option Bool
  fw_auto_update : Option Int
  network_not_found_timer : Option Int
  os_auto_update : Option Int
  sequence_body_log : Option Bool
  sequence_complete_log : Option Bool
  sequence_init_log : Option Bool
deriving DecidableEq, Repr

/-- TS `InformationalSettings`: fields marked `?` in the source are
`Option`-typed here; the unmarked fields (`busy`, `locked`, `commit`,
`firmware_commit`, `target`, `env`, `node_name`) are required. -/
structure InformationalSettings where
  uptime : Option Int
  disk_usage : Option Int
  memory_usage : Option Int
  soc_temp : Option Int
  wifi_level : Option Int
  controller_version : Option String
  firmware_version : Option String
  throttled : Option String
  private_ip : Option String
  sync_status : Option SyncStatus
  busy : Bool
  locked : Bool
  commit : String
  firmware_commit : String
  target : String
  env : String
  node_name : String
  currently_on_beta : Option Bool
  update_available : Option Bool
deriving DecidableEq, Repr

/-- TS `BotStateTree`: everything the farmbot knows about itself at a given
moment in time.  String-keyed dictionaries become `String → Option _`;
`location_data : Record<LocationName, Record<Xyz, (number | undefined)>>`
becomes a total function on the three location names whose per-axis values
are optional. -/
@[ext]
structure BotStateTree where
  mcu_params : McuParams
  location_data : LocationName → Xyz → Option Int
  pins : Pins
  configuration : Configuration
  informational_settings : InformationalSettings
  user_env : String → Option String
  jobs : String → Option JobProgress
  process_info : String → Option FarmwareManifestEntry
  gpio_registry : Option (String → Option String)
  enigmas : Option (String → Option Enigma)

/-! ### StateTree Store merge (modelled from the spec)

The repository sources contain only the data-model declarations; the engine
that the specification describes (StateTree Store, Correlator, Dispatcher)
is not under `src/`.  The definitions below are therefore modelled from the
spec's words. -/

/-- Modelled from the spec (the StateTree Store `merge` code is missing from
`src/`): merge of one optional leaf field, "each present field overwrites
the corresponding existing field and each absent field leaves the existing
value untouched". -/
def mergeOpt (b d : Option α) : Option α :=
  match d with
  | some v => some v
  | none => b

/-- Modelled from the spec (the StateTree Store `merge` code is missing from
`src/`): merge of a required field — a present delta value overwrites, an
absent one leaves the existing value untouched. -/
def mergeReq (b : α) (d : Option α) : α :=
  match d with
  | some v => v
  | none => b

/-- Modelled from the spec (the StateTree Store `merge` code is missing from
`src/`): recursive merge of a sparse sub-map — each key present in the
delta overwrites that key's entry, each absent key leaves the existing
entry untouched. -/
def mergeMap (b d : κ → Option α) : κ → Option α :=
  fun k =>
    match d k with
    | some v => some v
    | none => b k

/-- Modelled from the spec (the StateTree Store `merge` code is missing from
`src/`): merge of a sub-map that is itself optional in the state tree
(`gpio_registry`, `enigmas`): an absent delta leaves it untouched, a present
delta merges key-by-key into the existing map (or into the empty map when
the existing one is absent). -/
def mergeOptMap {κ α : Type} (b : Option (κ → Option α)) (d : Option (κ → Option α)) :
    Option (κ → Option α) :=
  match d with
  | some dm => some (mergeMap (b.getD fun _ => none) dm)
  | none => b

/-- Modelled from the spec: a partial update for `location_data` — each of
the three location names may be absent (untouched) or carry a per-axis map
in which each present axis overwrites and each absent axis is untouched. -/
def LocationDelta : Type := LocationName → Option (Xyz → Option Int)

/-- Modelled from the spec (the StateTree Store `merge` code is missing from
`src/`): recursive merge of `location_data`. -/
def mergeLocation (b : LocationName → Xyz → Option Int) (d : LocationDelta) :
    LocationName → Xyz → Option Int :=
  fun l =>
    match d l with
    | some axes => mergeMap (b l) axes
    | none => b l

/-- Modelled from the spec (the StateTree Store `merge` code is missing from
`src/`): field-by-field merge of `Configuration` — each present config
field overwrites, each absent one is untouched.  A partial update for a
`Configuration` has the same all-optional shape as `Configuration` itself. -/
def mergeConfiguration (b d : Configuration) : Configuration where
  arduino_debug_messages := mergeOpt b.arduino_debug_messages d.arduino_debug_messages
  auto_sync := mergeOpt b.auto_sync d.auto_sync
  beta_opt_in := mergeOpt b.beta_opt_in d.beta_opt_in
  disable_factory_reset := mergeOpt b.disable_factory_reset d.disable_factory_reset
  firmware_hardware := mergeOpt b.firmware_hardware d.firmware_hardware
  firmware_input_log := mergeOpt b.firmware_input_log d.firmware_input_log
  firmware_output_log := mergeOpt b.firmware_output_log d.firmware_output_log
  fw_auto_update := mergeOpt b.fw_auto_update d.fw_auto_update
  network_not_found_timer := mergeOpt b.network_not_found_timer d.network_not_found_timer
  os_auto_update := mergeOpt b.os_auto_update d.os_auto_update
  sequence_body_log := mergeOpt b.sequence_body_log d.sequence_body_log
  sequence_complete_log := mergeOpt b.sequence_complete_log d.sequence_complete_log
  sequence_init_log := mergeOpt b.sequence_init_log d.sequence_init_log

/-- Modelled from the spec: a partial update for `InformationalSettings` —
every field, required or optional, may be present (overwrites) or absent
(untouched). -/
structure InformationalSettingsDelta where
  uptime : Option Int
  disk_usage : Option Int
  memory_usage : Option Int
  soc_temp : Option Int
  wifi_level : Option Int
  controller_version : Option String
  firmware_version : Option String
  throttled : Option String
  private_ip : Option String
  sync_status : Option SyncStatus
  busy : Option Bool
  locked : Option Bool
  commit : Option String
  firmware_commit : Option String
  target : Option String
  env : Option String
  node_name : Option String
  currently_on_beta : Option Bool
  update_available : Option Bool
deriving DecidableEq, Repr

/-- Modelled from the spec (the StateTree Store `merge` code is missing from
`src/`): field-by-field merge of `InformationalSettings`. -/
def mergeInfo (b : InformationalSettings) (d : InformationalSettingsDelta) :
    InformationalSettings where
  uptime := mergeOpt b.uptime d.uptime
  disk_usage := mergeOpt b.disk_usage d.disk_usage
  memory_usage := mergeOpt b.memory_usage d.memory_usage
  soc_temp := mergeOpt b.soc_temp d.soc_temp
  wifi_level := mergeOpt b.wifi_level d.wifi_level
  controller_version := mergeOpt b.controller_version d.controller_version
  firmware_version := mergeOpt b.firmware_version d.firmware_version
  throttled := mergeOpt b.throttled d.throttled
  private_ip := mergeOpt b.private_ip d.private_ip
  sync_status := mergeOpt b.sync_status d.sync_status
  busy := mergeReq b.busy d.busy
  locked := mergeReq b.locked d.locked
  commit := mergeReq b.commit d.commit
  firmware_commit := mergeReq b.firmware_commit d.firmware_commit
  target := mergeReq b.target d.target
  env := mergeReq b.env d.env
  node_name := mergeReq b.node_name d.node_name
  currently_on_beta := mergeOpt b.currently_on_beta d.currently_on_beta
  update_available := mergeOpt b.update_available d.update_available

/-- Modelled from the spec: a partial state update (`PartialStateTree` in
the spec's words) — every top-level field of `BotStateTree` may be absent
(`none`, leaving that field of the existing tree untouched) or present
(a sub-map or sub-structure merged recursively). -/
structure StateTreeDelta where
  mcu_params : Option McuParams
  location_data : Option LocationDelta
  pins : Option Pins
  configuration : Option Configuration
  informational_settings : Option InformationalSettingsDelta
  user_env : Option (String → Option String)
  jobs : Option (String → Option JobProgress)
  process_info : Option (String → Option FarmwareManifestEntry)
  gpio_registry : Option (String → Option String)
  enigmas : Option (String → Option Enigma)

/-- Modelled from the spec (the StateTree Store `merge` code is missing from
`src/`): merge of one top-level field — an absent (`none`) field in the
delta leaves the existing value untouched, a present one is merged in by
the field's own recursive merge `app`. -/
def mergeField {β δ : Type} (app : β → δ → β) (b : β) (d : Option δ) : β :=
  match d with
  | some x => app b x
  | none => b

/-- Modelled from the spec (the StateTree Store `merge` code is missing from
`src/`): `merge(partial)` applies a structural, field-by-field union where
each present field/sub-map overwrites the corresponding existing field and
each absent field leaves the existing value untouched, recursive for nested
mappings, not a full replace. -/
def merge (S : BotStateTree) (P : StateTreeDelta) : BotStateTree where
  mcu_params := mergeField mergeMap S.mcu_params P.mcu_params
  location_data := mergeField mergeLocation S.location_data P.location_data
  pins := mergeField mergeMap S.pins P.pins
  configuration := mergeField mergeConfiguration S.configuration P.configuration
  informational_settings := mergeField mergeInfo S.informational_settings P.informational_settings
  user_env := mergeField mergeMap S.user_env P.user_env
  jobs := mergeField mergeMap S.jobs P.jobs
  process_info := mergeField mergeMap S.process_info P.process_info
  gpio_registry := mergeOptMap S.gpio_registry P.gpio_registry
  enigmas := mergeOptMap S.enigmas P.enigmas

/-! ### Uniform field views and sample states -/

/-- The names of the `Configuration` fields (TS `ConfigurationName =
keyof Configuration`). -/
inductive ConfigFieldName where
  | arduino_debug_messages
  | auto_sync
  | beta_opt_in
  | disable_factory_reset
  | firmware_hardware
  | firmware_input_log
  | firmware_output_log
  | fw_auto_update
  | network_not_found_timer
  | os_auto_update
  | sequence_body_log
  | sequence_complete_log
  | sequence_init_log
deriving DecidableEq, Repr

/-- The value stored under a `Configuration` field. -/
inductive ConfigValue where
  | num (n : Int)
  | flag (b : Bool)
  | hardware (h : FirmwareHardware)
deriving DecidableEq, Repr

/-- Uniform lookup of a `Configuration` field by name: `none` exactly when
the field is absent in the sparse configuration. -/
def configField (c : Configuration) : ConfigFieldName → Option ConfigValue
  | .arduino_debug_messages => c.arduino_debug_messages.map ConfigValue.num
  | .auto_sync => c.auto_sync.map ConfigValue.flag
  | .beta_opt_in => c.beta_opt_in.map ConfigValue.flag
  | .disable_factory_reset => c.disable_factory_reset.map ConfigValue.flag
  | .firmware_hardware => c.firmware_hardware.map ConfigValue.hardware
  | .firmware_input_log => c.firmware_input_log.map ConfigValue.flag
  | .firmware_output_log => c.firmware_output_log.map ConfigValue.flag
  | .fw_auto_update => c.fw_auto_update.map ConfigValue.num
  | .network_not_found_timer => c.network_not_found_timer.map ConfigValue.num
  | .os_auto_update => c.os_auto_update.map ConfigValue.num
  | .sequence_body_log => c.sequence_body_log.map ConfigValue.flag
  | .sequence_complete_log => c.sequence_complete_log.map ConfigValue.flag
  | .sequence_init_log => c.sequence_init_log.map ConfigValue.flag

/-- The names of the `InformationalSettings` fields. -/
inductive InfoFieldName where
  | uptime
  | disk_usage
  | memory_usage
  | soc_temp
  | wifi_level
  | controller_version
  | firmware_version
  | throttled
  | private_ip
  | sync_status
  | busy
  | locked
  | commit
  | firmware_commit
  | target
  | env
  | node_name
  | currently_on_beta
  | update_available
deriving DecidableEq, Repr

/-- The value stored under an `InformationalSettings` field. -/
inductive InfoValue where
  | num (n : Int)
  | str (s : String)
  | flag (b : Bool)
  | sync (s : SyncStatus)
deriving DecidableEq, Repr

/-- Uniform lookup of an `InformationalSettings` field by name: fields the
source declares with `?` yield `none` exactly when absent; the required
fields (`busy`, `locked`, `commit`, `firmware_commit`, `target`, `env`,
`node_name`) always yield `some`. -/
def infoField (s : InformationalSettings) : InfoFieldName → Option InfoValue
  | .uptime => s.uptime.map InfoValue.num
  | .disk_usage => s.disk_usage.map InfoValue.num
  | .memory_usage => s.memory_usage.map InfoValue.num
  | .soc_temp => s.soc_temp.map InfoValue.num
  | .wifi_level => s.wifi_level.map InfoValue.num
  | .controller_version => s.controller_version.map InfoValue.str
  | .firmware_version => s.firmware_version.map InfoValue.str
  | .throttled => s.throttled.map InfoValue.str
  | .private_ip => s.private_ip.map InfoValue.str
  | .sync_status => s.sync_status.map InfoValue.sync
  | .busy => some (InfoValue.flag s.busy)
  | .locked => some (InfoValue.flag s.locked)
  | .commit => some (InfoValue.str s.commit)
  | .firmware_commit => some (InfoValue.str s.firmware_commit)
  | .target => some (InfoValue.str s.target)
  | .env => some (InfoValue.str s.env)
  | .node_name => some (InfoValue.str s.node_name)
  | .currently_on_beta => s.currently_on_beta.map InfoValue.flag
  | .update_available => s.update_available.map InfoValue.flag

/-- Uniform lookup of an `InformationalSettingsDelta` field by name:
`none` exactly when the field is absent from the partial update. -/
def deltaInfoField (d : InformationalSettingsDelta) : InfoFieldName → Option InfoValue
  | .uptime => d.uptime.map InfoValue.num
  | .disk_usage => d.disk_usage.map InfoValue.num
  | .memory_usage => d.memory_usage.map InfoValue.num
  | .soc_temp => d.soc_temp.map InfoValue.num
  | .wifi_level => d.wifi_level.map InfoValue.num
  | .controller_version => d.controller_version.map InfoValue.str
  | .firmware_version => d.firmware_version.map InfoValue.str
  | .throttled => d.throttled.map InfoValue.str
  | .private_ip => d.private_ip.map InfoValue.str
  | .sync_status => d.sync_status.map InfoValue.sync
  | .busy => d.busy.map InfoValue.flag
  | .locked => d.locked.map InfoValue.flag
  | .commit => d.commit.map InfoValue.str
  | .firmware_commit => d.firmware_commit.map InfoValue.str
  | .target => d.target.map InfoValue.str
  | .env => d.env.map InfoValue.str
  | .node_name => d.node_name.map InfoValue.str
  | .currently_on_beta => d.currently_on_beta.map InfoValue.flag
  | .update_available => d.update_available.map InfoValue.flag

/-- The all-absent configuration. -/
def emptyConfiguration : Configuration where
  arduino_debug_messages := none
  auto_sync := none
  beta_opt_in := none
  disable_factory_reset := none
  firmware_hardware := none
  firmware_input_log := none
  firmware_output_log := none
  fw_auto_update := none
  network_not_found_timer := none
  os_auto_update := none
  sequence_body_log := none
  sequence_complete_log := none
  sequence_init_log := none

/-- Informational settings with every optional metric absent and the
required fields at their initial values. -/
def emptyInfo : InformationalSettings where
  uptime := none
  disk_usage := none
  memory_usage := none
  soc_temp := none
  wifi_level := none
  controller_version := none
  firmware_version := none
  throttled := none
  private_ip := none
  sync_status := none
  busy := false
  locked := false
  commit := ""
  firmware_commit := ""
  target := ""
  env := ""
  node_name := ""
  currently_on_beta := none
  update_available := none

/-- The empty state tree the engine starts from: every sparse mapping has
no known entries. -/
def initialState : BotStateTree where
  mcu_params := fun _ => none
  location_data := fun _ _ => none
  pins := fun _ => none
  configuration := emptyConfiguration
  informational_settings := emptyInfo
  user_env := fun _ => none
  jobs := fun _ => none
  process_info := fun _ => none
  gpio_registry := none
  enigmas := none

/-- The empty partial update: every field absent. -/
def emptyDelta : StateTreeDelta where
  mcu_params := none
  location_data := none
  pins := none
  configuration := none
  informational_settings := none
  user_env := none
  jobs := none
  process_info := none
  gpio_registry := none
  enigmas := none

/-- A state knowing only that pin 1 has mode 0 and value 5 (the spec's
example: the result of merging `{pins: {1: {mode:0,value:5}}}`). -/
def pinOneState : BotStateTree :=
  { initialState with pins := fun k => if k = "1" then some ⟨0, 5⟩ else none }

/-- A partial update carrying only `location_data` (the spec's example:
`{location_data: {...}}`, with no `pins` field). -/
def locationOnlyDelta : StateTreeDelta :=
  { emptyDelta with
      location_data := some fun _ => some fun _ => some 0 }

/-- The empty informational-settings partial update: every field absent. -/
def emptyInfoDelta : InformationalSettingsDelta where
  uptime := none
  disk_usage := none
  memory_usage := none
  soc_temp := none
  wifi_level := none
  controller_version := none
  firmware_version := none
  throttled := none
  private_ip := none
  sync_status := none
  busy := none
  locked := none
  commit := none
  firmware_commit := none
  target := none
  env := none
  node_name := none
  currently_on_beta := none
  update_available := none

/-- A partial update whose informational-settings delta is present but sets
only `locked`, omitting every other field (in particular `uptime`). -/
def infoOnlyDelta : StateTreeDelta :=
  { emptyDelta with
      informational_settings := some { emptyInfoDelta with locked := some true } }

/-- A state that knows its uptime. -/
def uptimeState : BotStateTree :=
  { initialState with
      informational_settings := { emptyInfo with uptime := some 42 } }

/-- A concrete legacy manifest. -/
def sampleLegacyManifest : LegacyFarmwareManifest where
  farmware_tools_version := none
  executable := "python"
  uuid := "uuid-1"
  args := ["main.py", "--verbose"]
  name := "legacy-fw"
  url := "http://example.test/manifest.json"
  path := "legacy-fw"
  meta :=
    { min_os_version_major := "6"
      description := "d"
      language := "python"
      version := "1.0"
      author := "a"
      zip := "http://example.test/fw.zip" }
  config := []

/-! ### Correlator and Dispatcher (modelled from the spec) -/

/-- Modelled from the spec (the Correlator code is missing from `src/`):
resolution state of a `PendingCommand` — pending, resolved with a result,
resolved with an error, or timed out. -/
inductive Resolution where
  | pending
  | resolvedOk (result : String)
  | resolvedErr (error : String)
  | timedOut
deriving DecidableEq, Repr

/-- Modelled from the spec (the Correlator code is missing from `src/`):
the Correlator's table of outstanding commands, keyed by correlation id;
`none` means the id is unknown (never registered, or already cleaned up). -/
def Correlator : Type := String → Option Resolution

/-- Modelled from the spec: a delivery to a pending handle — the value or
error handed to the original caller exactly once. -/
inductive Delivery where
  | ok (result : String)
  | err (error : String)
deriving DecidableEq, Repr

/-- Modelled from the spec (the Correlator code is missing from `src/`):
`register(id)` creates a `PendingCommand` entry in the pending state. -/
def Correlator.register (c : Correlator) (id : String) : Correlator :=
  fun k => if k = id then some Resolution.pending else c k

/-- Modelled from the spec (the Correlator code is missing from `src/`):
`resolve(id, result)` transitions a pending entry to resolved-success and
delivers the result to the handle; on an already-resolved or unknown id it
is a no-op (no delivery, state unchanged, never a crash). -/
def Correlator.resolve (c : Correlator) (id : String) (result : String) :
    Correlator × Option Delivery :=
  match c id with
  | some Resolution.pending =>
      (fun k => if k = id then some (Resolution.resolvedOk result) else c k,
       some (Delivery.ok result))
  | some _ => (c, none)
  | none => (c, none)

/-- Modelled from the spec (the Correlator code is missing from `src/`):
`reject(id, error)` transitions a pending entry to resolved-error and
delivers the error to the handle; on an already-resolved or unknown id it
is a no-op (no delivery, state unchanged, never a crash). -/
def Correlator.reject (c : Correlator) (id : String) (error : String) :
    Correlator × Option Delivery :=
  match c id with
  | some Resolution.pending =>
      (fun k => if k = id then some (Resolution.resolvedErr error) else c k,
       some (Delivery.err error))
  | some _ => (c, none)
  | none => (c, none)

/-- Modelled from the spec: the outbound envelope embedding the fresh
correlation id together with the serialized command. -/
structure Envelope where
  id : String
  payload : String
deriving DecidableEq, Repr

/-- Modelled from the spec: the observable steps of one `send` invocation,
in the order they happen. -/
inductive SendEvent where
  | registered (id : String)
  | published (env : Envelope)
  | replyProcessed (id : String)
deriving DecidableEq, Repr

/-- Modelled from the spec: a reply message carries the echoed correlation
id and a result payload. -/
structure Reply where
  id : String
  result : String
deriving DecidableEq, Repr

/-- Modelled from the spec (the Ingress Router code is missing from
`src/`): processing one inbound reply resolves the matching pending entry
via the Correlator; a reply with no matching entry is dropped. -/
def handleReply (c : Correlator) (r : Reply) : Correlator :=
  (c.resolve r.id r.result).1

/-- Modelled from the spec (the Dispatcher code is missing from `src/`):
`send` registers the `PendingCommand` with the Correlator strictly before
handing the envelope to the transport for publication.  The transport is a
function returning the replies it delivers synchronously (same tick) upon
publication; those replies are processed immediately after publish.  The
result is the Correlator state afterwards, paired with the ordered event
trace of the invocation. -/
def send (transport : Envelope → List Reply) (c : Correlator)
    (id payload : String) : Correlator × List SendEvent :=
  let registered := c.register id
  let env : Envelope := ⟨id, payload⟩
  let replies := transport env
  let afterReplies := replies.foldl handleReply registered
  (afterReplies,
   SendEvent.registered id :: SendEvent.published env ::
     replies.map fun r => SendEvent.replyProcessed r.id)

/-- Modelled from the spec: the test-double transport that synchronously
echoes a reply (with the envelope's own correlation id) immediately after
publish. -/
def echoTransport (result : String) : Envelope → List Reply :=
  fun env => [⟨env.id, result⟩]

/-! ### Merge lemmas -/

theorem mergeOpt_idem {α : Type} (b d : Option α) :
    mergeOpt (mergeOpt b d) d = mergeOpt b d := by
  cases d <;> rfl

theorem mergeReq_idem {α : Type} (b : α) (d : Option α) :
    mergeReq (mergeReq b d) d = mergeReq b d := by
  cases d <;> rfl

theorem mergeMap_idem {κ α : Type} (b d : κ → Option α) :
    mergeMap (mergeMap b d) d = mergeMap b d := by
  funext k
  cases h : d k <;> simp [mergeMap, h]

theorem mergeMap_absent {κ α : Type} (b d : κ → Option α) (k : κ) (h : d k = none) :
    mergeMap b d k = b k := by
  simp [mergeMap, h]

theorem mergeOptMap_idem {κ α : Type} (b d : Option (κ → Option α)) :
    mergeOptMap (mergeOptMap b d) d = mergeOptMap b d := by
  cases d <;> simp [mergeOptMap, mergeMap_idem]

theorem mergeLocation_idem (b : LocationName → Xyz → Option Int) (d : LocationDelta) :
    mergeLocation (mergeLocation b d) d = mergeLocation b d := by
  funext l
  cases h : d l <;> simp [mergeLocation, h, mergeMap_idem]

theorem mergeConfiguration_idem (b d : Configuration) :
    mergeConfiguration (mergeConfiguration b d) d = mergeConfiguration b d := by
  simp [mergeConfiguration, mergeOpt_idem]

theorem mergeInfo_idem (b : InformationalSettings) (d : InformationalSettingsDelta) :
    mergeInfo (mergeInfo b d) d = mergeInfo b d := by
  simp [mergeInfo, mergeOpt_idem, mergeReq_idem]

theorem mergeField_idem {β δ : Type} (app : β → δ → β)
    (h : ∀ b x, app (app b x) x = app b x) (b : β) (d : Option δ) :
    mergeField app (mergeField app b d) d = mergeField app b d := by
  cases d <;> simp [mergeField, h]

/-! ### Claim theorems -/

/-- Claim C1: merging a partial update `P` into a state tree `S` leaves
every field of `S` whose corresponding field is absent in `P` unchanged —
at the top level for each of the ten `BotStateTree` fields, and recursively
inside every present sub-map or sub-structure: per key for the sparse
mappings (`mcu_params`, `pins`, `user_env`, `jobs`, `process_info`), per
location name and per axis inside a present location sub-map, per field of
a present `configuration` or `informational_settings` delta, and per inner
key of a present `gpio_registry` or `enigmas` delta.  A merge therefore
never downgrades a known value to unknown. -/
theorem merge_frame (S : BotStateTree) (P : StateTreeDelta) :
    (P.mcu_params = none → (merge S P).mcu_params = S.mcu_params)
    ∧ (P.location_data = none → (merge S P).location_data = S.location_data)
    ∧ (P.pins = none → (merge S P).pins = S.pins)
    ∧ (P.configuration = none → (merge S P).configuration = S.configuration)
    ∧ (P.informational_settings = none →
        (merge S P).informational_settings = S.informational_settings)
    ∧ (P.user_env = none → (merge S P).user_env = S.user_env)
    ∧ (P.jobs = none → (merge S P).jobs = S.jobs)
    ∧ (P.process_info = none → (merge S P).process_info = S.process_info)
    ∧ (P.gpio_registry = none → (merge S P).gpio_registry = S.gpio_registry)
    ∧ (P.enigmas = none → (merge S P).enigmas = S.enigmas)
    ∧ (∀ d k, P.mcu_params = some d → d k = none →
        (merge S P).mcu_params k = S.mcu_params k)
    ∧ (∀ d k, P.pins = some d → d k = none → (merge S P).pins k = S.pins k)
    ∧ (∀ d k, P.user_env = some d → d k = none →
        (merge S P).user_env k = S.user_env k)
    ∧ (∀ d k, P.jobs = some d → d k = none → (merge S P).jobs k = S.jobs k)
    ∧ (∀ d k, P.process_info = some d → d k = none →
        (merge S P).process_info k = S.process_info k)
    ∧ (∀ d l, P.location_data = some d → d l = none →
        (merge S P).location_data l = S.location_data l)
    ∧ (∀ d axes l a, P.location_data = some d → d l = some axes → axes a = none →
        (merge S P).location_data l a = S.location_data l a)
    ∧ (∀ d f, P.configuration = some d → configField d f = none →
        configField (merge S P).configuration f = configField S.configuration f)
    ∧ (∀ d f, P.informational_settings = some d → deltaInfoField d f = none →
        infoField (merge S P).informational_settings f
          = infoField S.informational_settings f)
    ∧ (∀ d g k, P.gpio_registry = some d → S.gpio_registry = some g → d k = none →
        ∃ g', (merge S P).gpio_registry = some g' ∧ g' k = g k)
    ∧ (∀ d k, P.gpio_registry = some d → d k = none →
        ((merge S P).gpio_registry.getD fun _ => none) k
          = (S.gpio_registry.getD fun _ => none) k)
    ∧ (∀ d g k, P.enigmas = some d → S.enigmas = some g → d k = none →
        ∃ g', (merge S P).enigmas = some g' ∧ g' k = g k)
    ∧ (∀ d k, P.enigmas = some d → d k = none →
        ((merge S P).enigmas.getD fun _ => none) k
          = (S.enigmas.getD fun _ => none) k) := by
  refine ⟨?_, ?_, ?_, ?_, ?_, ?_, ?_, ?_, ?_, ?_, ?_, ?_, ?_, ?_, ?_, ?_, ?_,
    ?_, ?_, ?_, ?_, ?_, ?_⟩
  · intro h; simp [merge, mergeField, h]
  · intro h; simp [merge, mergeField, h]
  · intro h; simp [merge, mergeField, h]
  · intro h; simp [merge, mergeField, h]
  · intro h; simp [merge, mergeField, h]
  · intro h; simp [merge, mergeField, h]
  · intro h; simp [merge, mergeField, h]
  · intro h; simp [merge, mergeField, h]
  · intro h; simp [merge, mergeOptMap, h]
  · intro h; simp [merge, mergeOptMap, h]
  · intro d k h hk; simp [merge, mergeField, h, mergeMap, hk]
  · intro d k h hk; simp [merge, mergeField, h, mergeMap, hk]
  · intro d k h hk; simp [merge, mergeField, h, mergeMap, hk]
  · intro d k h hk; simp [merge, mergeField, h, mergeMap, hk]
  · intro d k h hk; simp [merge, mergeField, h, mergeMap, hk]
  · intro d l h hl; simp [merge, mergeField, h, mergeLocation, hl]
  · intro d axes l a h hl ha
    simp [merge, mergeField, h, mergeLocation, hl, mergeMap, ha]
  · intro d f h hf
    have hm : (merge S P).configuration = mergeConfiguration S.configuration d := by
      simp [merge, mergeField, h]
    rw [hm]
    cases f
    all_goals simp only [configField, Option.map_eq_none'] at hf
    all_goals simp [configField, mergeConfiguration, mergeOpt, hf]
  · intro d f h hf
    have hm : (merge S P).informational_settings
        = mergeInfo S.informational_settings d := by
      simp [merge, mergeField, h]
    rw [hm]
    cases f
    all_goals simp only [deltaInfoField, Option.map_eq_none'] at hf
    all_goals simp [infoField, deltaInfoField, mergeInfo, mergeOpt, mergeReq, hf]
  · intro d g k h hg hk
    refine ⟨mergeMap g d, ?_, mergeMap_absent g d k hk⟩
    simp [merge, mergeOptMap, h, hg]
  · intro d k h hk
    simp [merge, mergeOptMap, h, mergeMap, hk]
  · intro d g k h hg hk
    refine ⟨mergeMap g d, ?_, mergeMap_absent g d k hk⟩
    simp [merge, mergeOptMap, h, hg]
  · intro d k h hk
    simp [merge, mergeOptMap, h, mergeMap, hk]

/-- Witness for C1: the spec's own example — after a state knows pin 1,
merging a partial update that carries only `location_data` (no `pins`
field) leaves the pin table unchanged — and the recursive case: merging a
present informational-settings delta that omits `uptime` leaves a known
uptime unchanged. -/
theorem merge_frame_witness :
    locationOnlyDelta.pins = none
    ∧ (merge pinOneState locationOnlyDelta).pins = pinOneState.pins
    ∧ infoField (merge uptimeState infoOnlyDelta).informational_settings
        InfoFieldName.uptime
      = infoField uptimeState.informational_settings InfoFieldName.uptime := by
  refine ⟨rfl, ?_, ?_⟩
  · exact (merge_frame pinOneState locationOnlyDelta).2.2.1 rfl
  · obtain ⟨-, -, -, -, -, -, -, -, -, -, -, -, -, -, -, -, -, -, hinfo, -, -, -, -⟩ :=
      merge_frame uptimeState infoOnlyDelta
    exact hinfo _ InfoFieldName.uptime rfl rfl

/-- Claim C2: merging the identical partial update twice in a row yields
the same state tree as merging it once — the merge is idempotent. -/
theorem merge_idempotent (S : BotStateTree) (P : StateTreeDelta) :
    merge (merge S P) P = merge S P := by
  refine BotStateTree.ext ?_ ?_ ?_ ?_ ?_ ?_ ?_ ?_ ?_ ?_
  · exact mergeField_idem mergeMap (fun b x => mergeMap_idem b x)
      S.mcu_params P.mcu_params
  · exact mergeField_idem mergeLocation (fun b x => mergeLocation_idem b x)
      S.location_data P.location_data
  · exact mergeField_idem mergeMap (fun b x => mergeMap_idem b x) S.pins P.pins
  · exact mergeField_idem mergeConfiguration (fun b x => mergeConfiguration_idem b x)
      S.configuration P.configuration
  · exact mergeField_idem mergeInfo (fun b x => mergeInfo_idem b x)
      S.informational_settings P.informational_settings
  · exact mergeField_idem mergeMap (fun b x => mergeMap_idem b x)
      S.user_env P.user_env
  · exact mergeField_idem mergeMap (fun b x => mergeMap_idem b x) S.jobs P.jobs
  · exact mergeField_idem mergeMap (fun b x => mergeMap_idem b x)
      S.process_info P.process_info
  · exact mergeOptMap_idem S.gpio_registry P.gpio_registry
  · exact mergeOptMap_idem S.enigmas P.enigmas

/-- Claim C3: `send` registers the `PendingCommand` with the Correlator
strictly before the envelope is handed to the transport for publication —
the event trace always begins with the registration, the publication comes
second — and consequently a transport that synchronously echoes a reply
immediately after publish still finds the matching pending entry and
resolves it: no same-tick reply is dropped. -/
theorem send_registers_before_publish
    (transport : Envelope → List Reply) (c : Correlator) (id payload : String) :
    (∃ rest, (send transport c id payload).2
        = SendEvent.registered id :: SendEvent.published ⟨id, payload⟩ :: rest)
    ∧ (∀ result, (send (echoTransport result) c id payload).1 id
        = some (Resolution.resolvedOk result)) := by
  constructor
  · exact ⟨_, rfl⟩
  · intro result
    simp [send, echoTransport, handleReply, Correlator.resolve, Correlator.register]

/-- Claim C4: `resolve(id, result)` and `reject(id, error)` deliver to the
pending handle exactly once — a pending entry receives exactly one delivery
and moves to the resolved state; calling either on an id that is already
resolved, or on an unknown id, is a no-op: no second delivery, the
Correlator state unchanged, and (both operations being total functions)
never a crash. -/
theorem correlator_delivery_exactly_once (c : Correlator) (id r r₂ e e₂ : String) :
    (c id = some Resolution.pending →
       (c.resolve id r).2 = some (Delivery.ok r)
       ∧ (c.resolve id r).1 id = some (Resolution.resolvedOk r)
       ∧ (c.resolve id r).1.resolve id r₂ = ((c.resolve id r).1, none)
       ∧ (c.resolve id r).1.reject id e₂ = ((c.resolve id r).1, none))
    ∧ (c id = some Resolution.pending →
       (c.reject id e).2 = some (Delivery.err e)
       ∧ (c.reject id e).1 id = some (Resolution.resolvedErr e)
       ∧ (c.reject id e).1.reject id e₂ = ((c.reject id e).1, none)
       ∧ (c.reject id e).1.resolve id r₂ = ((c.reject id e).1, none))
    ∧ (c id = none → c.resolve id r = (c, none) ∧ c.reject id e = (c, none))
    ∧ (∀ res, c id = some res → res ≠ Resolution.pending →
       c.resolve id r = (c, none) ∧ c.reject id e = (c, none)) := by
  refine ⟨?_, ?_, ?_, ?_⟩
  · intro h
    have hc : c.resolve id r
        = (fun k => if k = id then some (Resolution.resolvedOk r) else c k,
           some (Delivery.ok r)) := by
      simp [Correlator.resolve, h]
    rw [hc]
    refine ⟨rfl, by simp, ?_, ?_⟩
    · simp [Correlator.resolve]
    · simp [Correlator.reject]
  · intro h
    have hc : c.reject id e
        = (fun k => if k = id then some (Resolution.resolvedErr e) else c k,
           some (Delivery.err e)) := by
      simp [Correlator.reject, h]
    rw [hc]
    refine ⟨rfl, by simp, ?_, ?_⟩
    · simp [Correlator.reject]
    · simp [Correlator.resolve]
  · intro h
    exact ⟨by simp [Correlator.resolve, h], by simp [Correlator.reject, h]⟩
  · intro res h hne
    cases res with
    | pending => exact absurd rfl hne
    | resolvedOk x => exact ⟨by simp [Correlator.resolve, h], by simp [Correlator.reject, h]⟩
    | resolvedErr x => exact ⟨by simp [Correlator.resolve, h], by simp [Correlator.reject, h]⟩
    | timedOut => exact ⟨by simp [Correlator.resolve, h], by simp [Correlator.reject, h]⟩

/-- Witness for C4: on a concrete correlator holding the pending id `"a"`,
resolving delivers the result. -/
theorem correlator_delivery_witness :
    (Correlator.register (fun _ => none) "a") "a" = some Resolution.pending
    ∧ ((Correlator.register (fun _ => none) "a").resolve "a" "done").2
        = some (Delivery.ok "done") := by
  have h : (Correlator.register (fun _ => none) "a") "a" = some Resolution.pending := by
    simp [Correlator.register]
  exact ⟨h,
    ((correlator_delivery_exactly_once (Correlator.register (fun _ => none) "a")
        "a" "done" "r2" "e" "e2").1 h).1⟩

/-- Claim C5: every mapping in the state tree is sparse — for every key of
every mapping (microcontroller parameters, pin status table, user
configuration, jobs, environment variables, alerts) there are states in
which the key is absent, and absence (`none`) is represented distinctly
from a zero/false value, so the data model never substitutes a default for
a missing entry. -/
theorem sparse_mappings :
    (∀ k : McuParamName, ∃ S : BotStateTree, S.mcu_params k = none)
    ∧ (∀ k : String, ∃ S : BotStateTree, S.pins k = none)
    ∧ (∀ f : ConfigFieldName, ∃ S : BotStateTree, configField S.configuration f = none)
    ∧ (∀ k : String, ∃ S : BotStateTree, S.jobs k = none)
    ∧ (∀ k : String, ∃ S : BotStateTree, S.user_env k = none)
    ∧ (∀ k : String, ∃ (S : BotStateTree) (g : String → Option Enigma),
        S.enigmas = some g ∧ g k = none)
    ∧ (∀ k : McuParamName, ∃ S T : BotStateTree,
        S.mcu_params k = none ∧ T.mcu_params k = some 0
        ∧ S.mcu_params k ≠ T.mcu_params k)
    ∧ (∀ k : String, ∃ S T : BotStateTree,
        S.pins k = none ∧ T.pins k = some ⟨0, 0⟩ ∧ S.pins k ≠ T.pins k) := by
  refine ⟨?_, ?_, ?_, ?_, ?_, ?_, ?_, ?_⟩
  · intro k; exact ⟨initialState, rfl⟩
  · intro k; exact ⟨initialState, rfl⟩
  · intro f; exact ⟨initialState, by cases f <;> rfl⟩
  · intro k; exact ⟨initialState, rfl⟩
  · intro k; exact ⟨initialState, rfl⟩
  · intro k
    exact ⟨{ initialState with enigmas := some fun _ => none }, fun _ => none, rfl, rfl⟩
  · intro k
    refine ⟨initialState,
      { initialState with mcu_params := fun q => if q = k then some 0 else none },
      rfl, by simp, by simp [initialState]⟩
  · intro k
    refine ⟨initialState,
      { initialState with pins := fun q => if q = k then some ⟨0, 0⟩ else none },
      rfl, by simp, by simp [initialState]⟩

/-- Claim C6: an installed-extension manifest has exactly the legacy or the
current shape, and the `farmware_manifest_version` field discriminates:
it is present if and only if the manifest is the current shape, and absent
if and only if the manifest is the legacy shape. -/
theorem manifest_shape_discriminant (entry : FarmwareManifestEntry) :
    (entry.manifestVersion.isSome = true ↔ ∃ m, entry = FarmwareManifestEntry.current m)
    ∧ (entry.manifestVersion = none ↔ ∃ m, entry = FarmwareManifestEntry.legacy m) := by
  cases entry with
  | legacy m =>
      constructor
      · simp [FarmwareManifestEntry.manifestVersion]
      · simp [FarmwareManifestEntry.manifestVersion]
  | current m =>
      constructor
      · simp [FarmwareManifestEntry.manifestVersion]
      · simp [FarmwareManifestEntry.manifestVersion]

/-- Claim C7: every jobs-table record is a tagged union of exactly the
percent-based variant (unit `"percent"`, numeric percent) and the
byte-count variant (unit `"bytes"`, numeric byte count), and its status is
one of exactly `complete`, `working`, `error`. -/
theorem job_progress_shape (j : JobProgress) :
    ((j.unit = "percent" ∧ ∃ s p, j = JobProgress.percentage s p)
      ∨ (j.unit = "bytes" ∧ ∃ s b, j = JobProgress.bytes s b))
    ∧ (j.status = ProgressStatus.complete ∨ j.status = ProgressStatus.working
        ∨ j.status = ProgressStatus.error) := by
  constructor
  · cases j with
    | percentage s p => exact Or.inl ⟨rfl, s, p, rfl⟩
    | bytes s b => exact Or.inr ⟨rfl, s, b, rfl⟩
  · cases j with
    | percentage s p => cases s <;> simp [JobProgress.status]
    | bytes s b => cases s <;> simp [JobProgress.status]

/-- Claim C8: `location_data` maps exactly the three fixed coordinate
systems — raw encoder, scaled encoder, and commanded position — there is
no other location name; each maps per axis to a numeric value that may
individually be absent (and the empty state has every axis unknown). -/
theorem location_data_shape (S : BotStateTree) :
    (∀ l : LocationName,
        l = LocationName.position ∨ l = LocationName.scaled_encoders
        ∨ l = LocationName.raw_encoders)
    ∧ (∀ (l : LocationName) (a : Xyz),
        S.location_data l a = none ∨ ∃ v : Int, S.location_data l a = some v)
    ∧ (∀ (l : LocationName) (a : Xyz), initialState.location_data l a = none) := by
  refine ⟨?_, ?_, ?_⟩
  · intro l; cases l <;> simp
  · intro l a
    cases h : S.location_data l a with
    | none => exact Or.inl rfl
    | some v => exact Or.inr ⟨v, rfl⟩
  · intro l a; rfl

/-- Claim C9: in the read-only informational settings, the fields `busy`,
`locked`, `commit`, `firmware_commit`, `target`, `env` and `node_name` are
always present, while the optional metrics (`uptime`, `disk_usage`,
`memory_usage`, `wifi_level`, `sync_status` and the version strings) may
each be absent. -/
theorem informational_required_fields (s : InformationalSettings) :
    ((infoField s InfoFieldName.busy).isSome = true
      ∧ (infoField s InfoFieldName.locked).isSome = true
      ∧ (infoField s InfoFieldName.commit).isSome = true
      ∧ (infoField s InfoFieldName.firmware_commit).isSome = true
      ∧ (infoField s InfoFieldName.target).isSome = true
      ∧ (infoField s InfoFieldName.env).isSome = true
      ∧ (infoField s InfoFieldName.node_name).isSome = true)
    ∧ (∃ t : InformationalSettings,
        infoField t InfoFieldName.uptime = none
        ∧ infoField t InfoFieldName.disk_usage = none
        ∧ infoField t InfoFieldName.memory_usage = none
        ∧ infoField t InfoFieldName.wifi_level = none
        ∧ infoField t InfoFieldName.sync_status = none
        ∧ infoField t InfoFieldName.controller_version = none
        ∧ infoField t InfoFieldName.firmware_version = none) := by
  constructor
  · exact ⟨rfl, rfl, rfl, rfl, rfl, rfl, rfl⟩
  · exact ⟨emptyInfo, rfl, rfl, rfl, rfl, rfl, rfl, rfl⟩

/-- Claim C10: the command-line-arguments field differs in representation
between the two manifest shapes — on every legacy manifest `args` is a list
of strings, on every current manifest `args` is one combined string — so a
consumer of a manifest's args must branch on the manifest shape. -/
theorem manifest_args_representation (entry : FarmwareManifestEntry) :
    ((∃ m, entry = FarmwareManifestEntry.legacy m)
        ↔ ∃ l : List String, entry.argsView = Sum.inl l)
    ∧ ((∃ m, entry = FarmwareManifestEntry.current m)
        ↔ ∃ s : String, entry.argsView = Sum.inr s)
    ∧ (∀ m, entry = FarmwareManifestEntry.legacy m → entry.argsView = Sum.inl m.args)
    ∧ (∀ m, entry = FarmwareManifestEntry.current m → entry.argsView = Sum.inr m.args) := by
  refine ⟨?_, ?_, ?_, ?_⟩
  · constructor
    · rintro ⟨m, rfl⟩; exact ⟨m.args, rfl⟩
    · rintro ⟨l, hl⟩
      cases entry with
      | legacy m => exact ⟨m, rfl⟩
      | current m => simp [FarmwareManifestEntry.argsView] at hl
  · constructor
    · rintro ⟨m, rfl⟩; exact ⟨m.args, rfl⟩
    · rintro ⟨s, hs⟩
      cases entry with
      | legacy m => simp [FarmwareManifestEntry.argsView] at hs
      | current m => exact ⟨m, rfl⟩
  · rintro m rfl; rfl
  · rintro m rfl; rfl

/-- Witness for C10: on a concrete legacy manifest, the args view is the
list of argument strings. -/
theorem manifest_args_witness :
    (FarmwareManifestEntry.legacy sampleLegacyManifest).argsView
      = Sum.inl sampleLegacyManifest.args :=
  (manifest_args_representation
      (FarmwareManifestEntry.legacy sampleLegacyManifest)).2.2.1
    sampleLegacyManifest rfl

end Farmbot
